import Mathlib

/-!
Verification development for the `sms-client` WebSocket worker subsystem
(`src/ws/worker.rs`, `src/ws/connection.rs`, `src/ws/client.rs`, `src/config.rs`).

Modelling conventions:
* Durations (`std::time::Duration`) are natural numbers of milliseconds.
  `tokio::time::Instant` values are natural numbers of milliseconds on a
  monotone clock; `Instant - Instant` in tokio is saturating subtraction,
  which matches truncated `Nat` subtraction.
* External I/O (the TCP/TLS handshake, frame sends, the JSON deserializer,
  the clock) is resolved by an input script: each select-loop iteration of
  the session is driven by one `SessionEvent` recording which branch of the
  `tokio::select!` fired and with which data, and each handshake attempt is
  given its transport-level result.  Text frames carry the result of
  `serde_json::from_str::<WebsocketMessage>` directly, since the JSON codec
  is an external collaborator of the worker.
* Observable behaviour (callback invocations, frames sent, connection
  attempts, backoff waits) is recorded in an output trace of `TraceItem`s.
* The shared `is_connected: Arc<RwLock<bool>>` flag is threaded through the
  model as an explicit boolean.
-/

namespace SmsClient

/-- Configuration for the WebSocket client, from `WebsocketConfig` in
`src/config.rs` (named `WebSocketConfig` in the later snapshot).
Durations are in milliseconds. -/
structure WebsocketConfig where
  url : String
  authorization : Option String
  auto_reconnect : Bool
  reconnect_interval : Nat
  ping_interval : Nat
  ping_timeout : Nat
  max_reconnect_attempts : Option Nat
  deriving DecidableEq, Repr

/-- Default WebSocket configuration from `WebsocketConfig::new` /
`Default for WebsocketConfig` in `src/config.rs` (durations in seconds
there, milliseconds here). -/
def WebsocketConfig.new (url : String) : WebsocketConfig :=
  { url := url
    authorization := none
    auto_reconnect := true
    reconnect_interval := 5000
    ping_interval := 10000
    ping_timeout := 30000
    max_reconnect_attempts := none }

/-- Transport-level handshake failure, abstracting
`tokio_tungstenite::tungstenite::Error`.  The only structure the worker
inspects is whether the error is `Error::Http(response)` and the response
status code, so we keep exactly that. -/
inductive TransportError where
  | http (status : Nat)
  | other
  deriving DecidableEq, Repr

/-- Errors from `WebsocketError` in `src/ws/error.rs`. -/
inductive WebsocketError where
  | InvalidRequest
  | ConnectionError (e : TransportError)
  | UrlError
  | HttpError
  | InvalidHeader
  | JsonError
  | Unauthorized
  | AlreadyConnected
  | NotConnected
  | SendError
  | ChannelError
  | Timeout
  deriving DecidableEq, Repr

/-- Control messages for the worker loop, from `ControlMessage` in
`src/ws/worker.rs`. -/
inductive ControlMessage where
  | Stop
  | Reconnect
  deriving DecidableEq, Repr

/-- Action to take after processing a message, from `MessageAction` in
`src/ws/worker.rs`. -/
inductive MessageAction where
  | Continue
  | Reconnect
  deriving DecidableEq, Repr

/-- Decoded wire messages, from `WebsocketMessage` in `src/ws/types.rs`.
Payload structs (`SmsStoredMessage`, `SmsPartialDeliveryReport`,
`ModemStatusUpdateState`, `GnssPositionReport`) are out-of-scope wire data
carried opaquely; we represent each payload by an abstract inhabitant
(`Nat` key / `String` rendering) since the worker never inspects them. -/
inductive WebsocketMessage where
  | IncomingMessage (message : String)
  | OutgoingMessage (message : String)
  | DeliveryReport (message_id : Int) (report : String)
  | ModemStatusUpdate (previous current : String)
  | GnssPositionReport (report : String)
  | WebsocketConnectionUpdate (connected reconnect : Bool)
  deriving DecidableEq, Repr

/-- Observable actions of the worker, in order of occurrence:
callback invocations, frames written to the socket, handshake attempts and
successes, and backoff waits (with the computed delay). -/
inductive TraceItem where
  | connectAttempt
  | connected
  | callback (m : WebsocketMessage)
  | sendPing
  | sendPong
  | sendClose
  | backoffWait (delay : Nat)
  deriving DecidableEq, Repr

/-- Worker-loop handler, from `WorkerLoop` in `src/ws/worker.rs`.
`callback` records whether a message callback is registered
(`Option<MessageCallback>`); invocations of the callback appear in the
trace.  The TLS configuration only affects the external handshake and is
not consulted anywhere else, so it is omitted. -/
structure WorkerLoop where
  config : WebsocketConfig
  callback : Bool
  deriving DecidableEq, Repr

/-- Classification of handshake errors, from
`ConnectionParams::handle_connection_error` in `src/ws/connection.rs`:
an `Error::Http` response with status 401 becomes `Unauthorized`, every
other transport error is wrapped as a connection error. -/
def handle_connection_error (error : TransportError) : WebsocketError :=
  match error with
  | TransportError.http status =>
      if status = 401 then WebsocketError.Unauthorized
      else WebsocketError.ConnectionError (TransportError.http status)
  | e => WebsocketError.ConnectionError e

/-- Result of `ConnectionParams::connect` in `src/ws/connection.rs`, given
the transport-level outcome of the handshake (`none` = the handshake
succeeded and produced a stream). -/
def ConnectionParams.connect (handshake : Option TransportError) :
    Except WebsocketError Unit :=
  match handshake with
  | none => Except.ok ()
  | some e => Except.error (handle_connection_error e)

/-- Heartbeat state of one session: `last_pong_time` and
`waiting_for_pong` from `WorkerLoop::handle_connection`. -/
structure SessState where
  last_pong_time : Nat
  waiting_for_pong : Bool
  deriving DecidableEq, Repr

/-- Inbound WebSocket frame, abstracting `tungstenite::Message`.
A text frame carries the result of `serde_json::from_str::<WebsocketMessage>`
on its payload (the codec is external); a ping frame carries whether the
pong reply send succeeds; a pong frame carries the clock reading taken when
it is handled; `Binary` stands for the catch-all `_` arm. -/
inductive WsFrame where
  | Text (decoded : Option WebsocketMessage)
  | Close
  | Ping (pongSendOk : Bool)
  | Pong (now : Nat)
  | Binary
  deriving DecidableEq, Repr

/-- Decidable equality for `Except`, used by the derived instances below. -/
instance {ε α : Type} [DecidableEq ε] [DecidableEq α] : DecidableEq (Except ε α) :=
  fun a b =>
    match a, b with
    | Except.ok x, Except.ok y =>
        if h : x = y then Decidable.isTrue (by simp [h])
        else Decidable.isFalse (by simp [h])
    | Except.error x, Except.error y =>
        if h : x = y then Decidable.isTrue (by simp [h])
        else Decidable.isFalse (by simp [h])
    | Except.ok _, Except.error _ => Decidable.isFalse (by simp)
    | Except.error _, Except.ok _ => Decidable.isFalse (by simp)

/-- Script item for one iteration of the session `tokio::select!` loop in
`WorkerLoop::handle_connection`: which branch fired, and the external data
it saw.  `frame (Except.error ())` is a transport read error; `tick` carries
the clock reading and whether the ping send succeeds; `control` is a
delivered control-channel message. -/
inductive SessionEvent where
  | frame (msg : Except Unit WsFrame)
  | tick (now : Nat) (pingSendOk : Bool)
  | control (msg : ControlMessage)
  deriving DecidableEq, Repr

/-- Emission of a synthetic connection-status event, from
`WorkerLoop::emit_connection_update` in `src/ws/worker.rs`: invokes the
callback when one is registered, otherwise does nothing. -/
def emit_connection_update (w : WorkerLoop) (connected reconnect : Bool) :
    List TraceItem :=
  if w.callback then
    [TraceItem.callback (WebsocketMessage.WebsocketConnectionUpdate connected reconnect)]
  else []

/-- Processing of one text frame, from `WorkerLoop::process_text_message`:
a successfully decoded message is passed to the callback (when registered),
a decode failure is logged and dropped. -/
def process_text_message (w : WorkerLoop) (decoded : Option WebsocketMessage) :
    List TraceItem :=
  match decoded with
  | some ws_msg => if w.callback then [TraceItem.callback ws_msg] else []
  | none => []

/-- Processing of one inbound frame, from `WorkerLoop::handle_message`.
Returns the outputs, the updated heartbeat state and the action.  The Rust
function returns `WebsocketResult<MessageAction>`; the only error path is a
failed pong reply (`SendError`). -/
def handle_message (w : WorkerLoop) (st : SessState) (msg : Except Unit WsFrame) :
    List TraceItem × SessState × Except WebsocketError MessageAction :=
  match msg with
  | Except.ok (WsFrame.Text decoded) =>
      (process_text_message w decoded, st, Except.ok MessageAction.Continue)
  | Except.ok WsFrame.Close =>
      ([], st, Except.ok MessageAction.Reconnect)
  | Except.ok (WsFrame.Ping pongSendOk) =>
      if pongSendOk then ([TraceItem.sendPong], st, Except.ok MessageAction.Continue)
      else ([], st, Except.error WebsocketError.SendError)
  | Except.ok (WsFrame.Pong now) =>
      ([], { last_pong_time := now, waiting_for_pong := false },
       Except.ok MessageAction.Continue)
  | Except.ok WsFrame.Binary =>
      ([], st, Except.ok MessageAction.Continue)
  | Except.error _ =>
      ([], st, Except.ok MessageAction.Reconnect)

/-- Heartbeat decision, from `WorkerLoop::should_send_ping`: returns
`false` (ping timeout, reconnect) exactly when a ping is outstanding and
the time since the last pong strictly exceeds `ping_timeout`; otherwise
returns `true` (send a ping).  The Rust signature is
`WebsocketResult<bool>` but no error path exists. -/
def should_send_ping (w : WorkerLoop) (waiting_for_pong : Bool)
    (last_pong_time now : Nat) : Bool :=
  if waiting_for_pong then
    if now - last_pong_time > w.config.ping_timeout then false
    else true
  else true

/-- Processing of one control message inside an active session, from
`WorkerLoop::handle_control_message`: send a close frame (best effort) and
return whether to reconnect (`Stop` → `false`, `Reconnect` → `true`). -/
def handle_control_message (msg : ControlMessage) :
    List TraceItem × Except WebsocketError Bool :=
  match msg with
  | ControlMessage.Stop => ([TraceItem.sendClose], Except.ok false)
  | ControlMessage.Reconnect => ([TraceItem.sendClose], Except.ok true)

/-- Result of one iteration of the session select loop. -/
inductive StepResult where
  | Continue (st : SessState)
  | Finish (r : Except WebsocketError Bool)
  deriving DecidableEq, Repr

/-- One iteration of the `tokio::select!` loop in
`WorkerLoop::handle_connection`: an inbound frame goes through
`handle_message` (`Reconnect` action returns `Ok(true)`); a heartbeat tick
consults `should_send_ping` and either sends a ping and marks it
outstanding, or returns `Ok(true)` on ping-send failure or ping timeout;
a control message is settled by `handle_control_message`. -/
def sessionStep (w : WorkerLoop) (st : SessState) (ev : SessionEvent) :
    List TraceItem × StepResult :=
  match ev with
  | SessionEvent.frame msg =>
      match handle_message w st msg with
      | (out, st1, Except.ok MessageAction.Continue) => (out, StepResult.Continue st1)
      | (out, _, Except.ok MessageAction.Reconnect) =>
          (out, StepResult.Finish (Except.ok true))
      | (out, _, Except.error e) => (out, StepResult.Finish (Except.error e))
  | SessionEvent.tick now pingSendOk =>
      if should_send_ping w st.waiting_for_pong st.last_pong_time now then
        if pingSendOk then
          ([TraceItem.sendPing], StepResult.Continue { st with waiting_for_pong := true })
        else ([], StepResult.Finish (Except.ok true))
      else ([], StepResult.Finish (Except.ok true))
  | SessionEvent.control msg =>
      match handle_control_message msg with
      | (out, r) => (out, StepResult.Finish r)

/-- Result of running a session against a finite event script: either the
script ran out with the session still live, or the session returned. -/
inductive SessResult where
  | running (st : SessState)
  | done (r : Except WebsocketError Bool)
  deriving DecidableEq, Repr

/-- Session select loop of `WorkerLoop::handle_connection`, folded over a
finite script of select outcomes. -/
def sessionRun (w : WorkerLoop) (st : SessState) :
    List SessionEvent → List TraceItem × SessResult
  | [] => ([], SessResult.running st)
  | ev :: rest =>
      match sessionStep w st ev with
      | (out, StepResult.Continue st1) =>
          match sessionRun w st1 rest with
          | (out1, r) => (out ++ out1, r)
      | (out, StepResult.Finish r) => (out, SessResult.done r)

/-- Script for one handshake attempt of the outer loop in
`WorkerLoop::run`: the transport result of the handshake (`none` =
success), the clock reading at connection time (initialising
`last_pong_time`), the select-outcome script of the resulting session, and
the control messages that arrive during the following backoff wait (in
arrival order, all before the backoff sleep would elapse). -/
structure AttemptScript where
  connect : Option TransportError
  connectTime : Nat
  events : List SessionEvent
  backoffArrivals : List ControlMessage
  deriving DecidableEq, Repr

/-- Backoff delay computed in `WorkerLoop::run`:
`min(reconnect_interval * reconnect_count, 60s)` (milliseconds). -/
def backoffDelay (config : WebsocketConfig) (reconnect_count : Nat) : Nat :=
  min (config.reconnect_interval * reconnect_count) 60000

/-- Outcome of the backoff `tokio::select!` in `WorkerLoop::run`
(`sleep(delay)` raced against `Some(ControlMessage::Stop) = control_rx.recv()`):
the worker breaks out exactly when the first control message arriving
during the wait is `Stop`.  When the first arrival is `Reconnect` the recv
branch's pattern fails to match, so per `tokio::select!` semantics that
branch is disabled for the remainder of the select and the sleep wins,
regardless of later arrivals. -/
def backoffStopped (arrivals : List ControlMessage) : Bool :=
  match arrivals with
  | ControlMessage.Stop :: _ => true
  | _ => false

/-- Result of `WorkerLoop::handle_connection` against a finite script. -/
inductive HCResult where
  | result (r : Except WebsocketError Bool)
  | incomplete
  deriving DecidableEq, Repr

/-- Model of `WorkerLoop::handle_connection`: establish the connection
(classifying failures via `handle_connection_error`), then set the shared
flag to connected, emit the synthetic connected event, initialise the
heartbeat state and run the session select loop.  Returns the outputs,
whether the handshake succeeded (the only write to `is_connected` inside
this function sets it to `true` right after a successful handshake), and
the session result. -/
def handleConnection (w : WorkerLoop) (a : AttemptScript) :
    List TraceItem × Bool × HCResult :=
  match ConnectionParams.connect a.connect with
  | Except.error e => ([], false, HCResult.result (Except.error e))
  | Except.ok _ =>
      let hello := TraceItem.connected :: emit_connection_update w true false
      match sessionRun w { last_pong_time := a.connectTime, waiting_for_pong := false }
          a.events with
      | (out, SessResult.running _) => (hello ++ out, true, HCResult.incomplete)
      | (out, SessResult.done r) => (hello ++ out, true, HCResult.result r)

/-- Decision taken by one iteration of the outer `loop` in
`WorkerLoop::run` after `handle_connection` returns. -/
inductive IterResult where
  | done (r : Except WebsocketError Unit)
  | retry
  | stuck
  deriving DecidableEq, Repr

/-- One iteration of the outer `loop` match in `WorkerLoop::run`:
on `Ok(should_reconnect)` emit the disconnect event with
`will_reconnect = should_reconnect && auto_reconnect` and break unless
retrying; on `Err(Unauthorized)` return the error immediately (no
disconnect event); on any other error emit the disconnect event with
`will_reconnect = auto_reconnect` and break unless retrying.  Returns the
iteration's trace, the `is_connected` value after `handle_connection`, and
the decision. -/
def loopIteration (w : WorkerLoop) (conn : Bool) (a : AttemptScript) :
    List TraceItem × Bool × IterResult :=
  match handleConnection w a with
  | (tr, didConnect, hr) =>
    let conn1 := if didConnect then true else conn
    match hr with
    | HCResult.incomplete =>
        (TraceItem.connectAttempt :: tr, conn1, IterResult.stuck)
    | HCResult.result (Except.ok should_reconnect) =>
        let will_reconnect := should_reconnect && w.config.auto_reconnect
        (TraceItem.connectAttempt :: tr ++ emit_connection_update w false will_reconnect,
         conn1,
         if will_reconnect then IterResult.retry else IterResult.done (Except.ok ()))
    | HCResult.result (Except.error e) =>
        match e with
        | WebsocketError.Unauthorized =>
            (TraceItem.connectAttempt :: tr, conn1,
             IterResult.done (Except.error WebsocketError.Unauthorized))
        | _ =>
            let will_reconnect := w.config.auto_reconnect
            (TraceItem.connectAttempt :: tr ++ emit_connection_update w false will_reconnect,
             conn1,
             if will_reconnect then IterResult.retry
             else IterResult.done (Except.ok ()))

/-- Outcome of a worker run against a finite script: the worker loop
returned (`Ok(())` on every `break` path since the final write
`*is_connected = false` precedes `Ok(())`, or `Err` for the `Unauthorized`
return), or the script was exhausted with the worker still live. -/
inductive RunOutcome where
  | finished (r : Except WebsocketError Unit)
  | incomplete
  deriving DecidableEq, Repr

/-- Final state of a worker run: the trace of observable actions, the
value of the shared `is_connected` flag, and the outcome. -/
structure RunState where
  trace : List TraceItem
  is_connected : Bool
  outcome : RunOutcome
  deriving DecidableEq, Repr

/-- Outer retry loop of `WorkerLoop::run`, driven by a script of handshake
attempts.  `reconnect_count` is the attempt counter (incremented on every
retried iteration, never reset); `conn` is the current value of the shared
`is_connected` flag.  A retried iteration first writes
`*is_connected = false`, then computes the capped backoff delay and races
the sleep against a `Stop`; every `break` path is followed by the final
`*is_connected = false` write and `Ok(())`. -/
def runLoop (w : WorkerLoop) (reconnect_count : Nat) (conn : Bool) :
    List AttemptScript → RunState
  | [] => { trace := [], is_connected := conn, outcome := RunOutcome.incomplete }
  | a :: rest =>
      match loopIteration w conn a with
      | (tr, conn1, IterResult.stuck) =>
          { trace := tr, is_connected := conn1, outcome := RunOutcome.incomplete }
      | (tr, conn1, IterResult.done r) =>
          { trace := tr,
            is_connected := match r with
              | Except.ok _ => false
              | Except.error _ => conn1,
            outcome := RunOutcome.finished r }
      | (tr, _, IterResult.retry) =>
          let delay := backoffDelay w.config (reconnect_count + 1)
          if backoffStopped a.backoffArrivals then
            { trace := tr ++ [TraceItem.backoffWait delay],
              is_connected := false,
              outcome := RunOutcome.finished (Except.ok ()) }
          else
            let s := runLoop w (reconnect_count + 1) false rest
            { trace := tr ++ TraceItem.backoffWait delay :: s.trace,
              is_connected := s.is_connected,
              outcome := s.outcome }

/-- Model of `WorkerLoop::run` (after `ConnectionParams::from_config`
succeeds; URL/header parsing and TLS setup are external): the retry loop
started with `reconnect_count = 0` and the shared flag as initialised by
the client (`false`). -/
def WorkerLoop.run (w : WorkerLoop) (attempts : List AttemptScript) : RunState :=
  runLoop w 0 false attempts

/-- Backoff delays recorded in a trace, in order. -/
def backoffDelays (trace : List TraceItem) : List Nat :=
  trace.filterMap fun item =>
    match item with
    | TraceItem.backoffWait d => some d
    | _ => none

/-- Number of connection attempts recorded in a trace. -/
def countConnectAttempts (trace : List TraceItem) : Nat :=
  trace.countP fun item =>
    match item with
    | TraceItem.connectAttempt => true
    | _ => false

/-- Client-side state relevant to the start operations, from
`WebSocketClient` in `src/ws/client.rs`: whether `worker_handle` is `Some`
(a worker task has been spawned and not taken), whether `control_tx` is
`Some`, and how many control channels have been created so far (one per
`unbounded_channel()` call), so that replacing the channel is observable. -/
structure ClientState where
  has_worker_handle : Bool
  has_control_tx : Bool
  control_generation : Nat
  deriving DecidableEq, Repr

/-- Model of `WebSocketClient::start_background` in `src/ws/client.rs`:
when a worker handle already exists, return `AlreadyConnected` leaving the
state untouched (no new channel, no spawn); otherwise create a fresh
control channel, spawn the worker and store its handle. -/
def WebSocketClient.start_background (c : ClientState) :
    ClientState × Except WebsocketError Unit :=
  if c.has_worker_handle then (c, Except.error WebsocketError.AlreadyConnected)
  else
    ({ has_worker_handle := true, has_control_tx := true,
       control_generation := c.control_generation + 1 }, Except.ok ())

/-- Model of `WebSocketClient::start_blocking` in `src/ws/client.rs`:
unconditionally create a fresh control channel and run the worker loop on
the caller's task (no already-running check, `worker_handle` untouched),
returning the worker run's result. -/
def WebSocketClient.start_blocking (c : ClientState) (w : WorkerLoop)
    (attempts : List AttemptScript) : ClientState × RunState :=
  ({ c with has_control_tx := true, control_generation := c.control_generation + 1 },
   WorkerLoop.run w attempts)

/-- Sample worker (default configuration, callback registered) used by the
concrete witnesses below. -/
def sampleWorker : WorkerLoop :=
  { config := WebsocketConfig.new "ws://gateway", callback := true }

/-- Sample worker with `auto_reconnect` disabled. -/
def sampleWorkerNoRetry : WorkerLoop :=
  { config := { WebsocketConfig.new "ws://gateway" with auto_reconnect := false },
    callback := true }

/-- Attempt whose handshake fails with a retryable transport error and
whose backoff wait sees no control message. -/
def retryableAttempt : AttemptScript :=
  { connect := some TransportError.other, connectTime := 0, events := [],
    backoffArrivals := [] }

end SmsClient

namespace SmsClient

/-! ### Helper lemmas about traces -/

/-- Connection-attempt markers add up over concatenation. -/
lemma countCA_append (l1 l2 : List TraceItem) :
    countConnectAttempts (l1 ++ l2)
      = countConnectAttempts l1 + countConnectAttempts l2 :=
  List.countP_append _ _ _

/-- Backoff delays of a concatenation are the two delay lists appended. -/
lemma backoffDelays_append (l1 l2 : List TraceItem) :
    backoffDelays (l1 ++ l2) = backoffDelays l1 ++ backoffDelays l2 :=
  List.filterMap_append _ _ _

/-- Synthetic status emissions contain no connection attempt and no
backoff wait. -/
lemma emit_trace_pure (w : WorkerLoop) (c r : Bool) :
    countConnectAttempts (emit_connection_update w c r) = 0 ∧
    backoffDelays (emit_connection_update w c r) = [] := by
  unfold emit_connection_update
  split <;> simp [countConnectAttempts, backoffDelays]

/-- Session select-loop iterations only write frames or invoke the
callback: no connection attempt and no backoff wait happens inside one. -/
lemma sessionStep_trace_pure (w : WorkerLoop) (st : SessState) (ev : SessionEvent) :
    countConnectAttempts (sessionStep w st ev).1 = 0 ∧
    backoffDelays (sessionStep w st ev).1 = [] := by
  rcases ev with f | ⟨now, pok⟩ | c
  · rcases f with u | f
    · simp [sessionStep, handle_message, countConnectAttempts, backoffDelays]
    · rcases f with d | _ | p | tn | _
      · rcases d with _ | m
        · simp [sessionStep, handle_message, process_text_message,
            countConnectAttempts, backoffDelays]
        · by_cases hc : w.callback <;>
            simp [sessionStep, handle_message, process_text_message, hc,
              countConnectAttempts, backoffDelays]
      · simp [sessionStep, handle_message, countConnectAttempts, backoffDelays]
      · cases p <;>
          simp [sessionStep, handle_message, countConnectAttempts, backoffDelays]
      · simp [sessionStep, handle_message, countConnectAttempts, backoffDelays]
      · simp [sessionStep, handle_message, countConnectAttempts, backoffDelays]
  · cases hsp : should_send_ping w st.waiting_for_pong st.last_pong_time now <;>
      cases pok <;>
      simp [sessionStep, hsp, countConnectAttempts, backoffDelays]
  · cases c <;>
      simp [sessionStep, handle_control_message, countConnectAttempts, backoffDelays]

/-- Extension of `sessionStep_trace_pure` to a whole session run. -/
lemma sessionRun_trace_pure (w : WorkerLoop) (evs : List SessionEvent) :
    ∀ st : SessState,
      countConnectAttempts (sessionRun w st evs).1 = 0 ∧
      backoffDelays (sessionRun w st evs).1 = [] := by
  induction evs with
  | nil => intro st; simp [sessionRun, countConnectAttempts, backoffDelays]
  | cons ev rest ih =>
      intro st
      rcases h : sessionStep w st ev with ⟨out, sr⟩
      have hp := sessionStep_trace_pure w st ev
      rw [h] at hp
      cases sr with
      | Continue st1 =>
          rcases h1 : sessionRun w st1 rest with ⟨out1, r1⟩
          have hr := ih st1
          rw [h1] at hr
          constructor
          · simp only [sessionRun, h, h1]
            rw [countCA_append]
            simp [hp.1, hr.1]
          · simp only [sessionRun, h, h1]
            rw [backoffDelays_append]
            simp [hp.2, hr.2]
      | Finish r =>
          constructor
          · simp only [sessionRun, h]; exact hp.1
          · simp only [sessionRun, h]; exact hp.2

/-- Trace of `handleConnection`: no connection-attempt marker and no
backoff wait is recorded inside one handshake-plus-session. -/
lemma handleConnection_trace_pure (w : WorkerLoop) (a : AttemptScript) :
    countConnectAttempts (handleConnection w a).1 = 0 ∧
    backoffDelays (handleConnection w a).1 = [] := by
  rcases hc : ConnectionParams.connect a.connect with e | u
  · simp [handleConnection, hc, countConnectAttempts, backoffDelays]
  · rcases hs : sessionRun w { last_pong_time := a.connectTime, waiting_for_pong := false }
        a.events with ⟨out, sr⟩
    have hp := sessionRun_trace_pure w a.events
      { last_pong_time := a.connectTime, waiting_for_pong := false }
    rw [hs] at hp
    have he := emit_trace_pure w true false
    cases sr <;>
      · constructor
        · simp only [handleConnection, hc, hs, List.cons_append]
          rw [show countConnectAttempts
                (TraceItem.connected :: (emit_connection_update w true false ++ out))
              = countConnectAttempts (emit_connection_update w true false ++ out) by
                simp [countConnectAttempts]]
          rw [countCA_append, he.1, hp.1]
        · simp only [handleConnection, hc, hs, List.cons_append]
          rw [show backoffDelays
                (TraceItem.connected :: (emit_connection_update w true false ++ out))
              = backoffDelays (emit_connection_update w true false ++ out) by
                simp [backoffDelays]]
          rw [backoffDelays_append, he.2, hp.2]
          rfl

/-- Connection-attempt markers ignore a leading `connectAttempt` modulo one. -/
lemma countCA_cons_attempt (l : List TraceItem) :
    countConnectAttempts (TraceItem.connectAttempt :: l)
      = countConnectAttempts l + 1 := by
  simp [countConnectAttempts, List.countP_cons]

/-- A `backoffWait` marker is invisible to the attempt count. -/
lemma countCA_cons_backoff (d : Nat) (l : List TraceItem) :
    countConnectAttempts (TraceItem.backoffWait d :: l) = countConnectAttempts l := by
  simp [countConnectAttempts, List.countP_cons]

/-- A leading `connectAttempt` marker carries no backoff delay. -/
lemma backoffDelays_cons_attempt (l : List TraceItem) :
    backoffDelays (TraceItem.connectAttempt :: l) = backoffDelays l := by
  simp [backoffDelays]

/-- A leading `backoffWait` marker contributes its delay. -/
lemma backoffDelays_cons_backoff (d : Nat) (l : List TraceItem) :
    backoffDelays (TraceItem.backoffWait d :: l) = d :: backoffDelays l := by
  simp [backoffDelays]

/-- Trace of one outer-loop iteration: exactly one connection-attempt
marker and no backoff wait. -/
lemma loopIteration_trace_pure (w : WorkerLoop) (conn : Bool) (a : AttemptScript) :
    countConnectAttempts (loopIteration w conn a).1 = 1 ∧
    backoffDelays (loopIteration w conn a).1 = [] := by
  rcases h : handleConnection w a with ⟨tr, dc, hr⟩
  have hp := handleConnection_trace_pure w a
  rw [h] at hp
  cases hr with
  | incomplete =>
      simp only [loopIteration, h]
      exact ⟨by rw [countCA_cons_attempt, hp.1],
        by rw [backoffDelays_cons_attempt]; exact hp.2⟩
  | result r =>
      cases r with
      | ok b =>
          simp only [loopIteration, h]
          refine ⟨?_, ?_⟩
          · rw [List.cons_append, countCA_cons_attempt, countCA_append, hp.1,
              (emit_trace_pure w false _).1]
          · rw [List.cons_append, backoffDelays_cons_attempt, backoffDelays_append,
              hp.2, (emit_trace_pure w false _).2]
            rfl
      | error e =>
          cases e <;> simp only [loopIteration, h] <;>
            refine ⟨?_, ?_⟩ <;>
            first
              | rw [List.cons_append, countCA_cons_attempt, countCA_append, hp.1,
                  (emit_trace_pure w false _).1]
              | rw [countCA_cons_attempt, hp.1]
              | (rw [List.cons_append, backoffDelays_cons_attempt, backoffDelays_append,
                   hp.2, (emit_trace_pure w false _).2]
                 rfl)
              | (rw [backoffDelays_cons_attempt]; exact hp.2)

/-! ### Interface lemmas for the outer-loop recursion -/

/-- Unfolding `runLoop` when the iteration decides to exit the loop. -/
lemma runLoop_exit (w : WorkerLoop) (count : Nat) (conn : Bool) (a : AttemptScript)
    (rest : List AttemptScript) (tr : List TraceItem) (conn1 : Bool)
    (r : Except WebsocketError Unit)
    (h : loopIteration w conn a = (tr, conn1, IterResult.done r)) :
    runLoop w count conn (a :: rest) =
      { trace := tr,
        is_connected := match r with
          | Except.ok _ => false
          | Except.error _ => conn1,
        outcome := RunOutcome.finished r } := by
  simp only [runLoop, h]
  cases r <;> rfl

/-- Unfolding `runLoop` when the script is exhausted mid-session. -/
lemma runLoop_stuck (w : WorkerLoop) (count : Nat) (conn : Bool) (a : AttemptScript)
    (rest : List AttemptScript) (tr : List TraceItem) (conn1 : Bool)
    (h : loopIteration w conn a = (tr, conn1, IterResult.stuck)) :
    runLoop w count conn (a :: rest) =
      { trace := tr, is_connected := conn1, outcome := RunOutcome.incomplete } := by
  simp only [runLoop, h]

/-- Unfolding `runLoop` when the iteration retries and a `Stop` arrives
first during the backoff wait. -/
lemma runLoop_retry_stop (w : WorkerLoop) (count : Nat) (conn : Bool)
    (a : AttemptScript) (rest : List AttemptScript) (tr : List TraceItem)
    (conn1 : Bool)
    (h : loopIteration w conn a = (tr, conn1, IterResult.retry))
    (hstop : backoffStopped a.backoffArrivals = true) :
    runLoop w count conn (a :: rest) =
      { trace := tr ++ [TraceItem.backoffWait (backoffDelay w.config (count + 1))],
        is_connected := false,
        outcome := RunOutcome.finished (Except.ok ()) } := by
  simp only [runLoop, h, hstop, if_true]

/-- Unfolding `runLoop` when the iteration retries and the backoff sleep
elapses. -/
lemma runLoop_retry_go (w : WorkerLoop) (count : Nat) (conn : Bool)
    (a : AttemptScript) (rest : List AttemptScript) (tr : List TraceItem)
    (conn1 : Bool)
    (h : loopIteration w conn a = (tr, conn1, IterResult.retry))
    (hstop : backoffStopped a.backoffArrivals = false) :
    runLoop w count conn (a :: rest) =
      { trace := tr ++ TraceItem.backoffWait (backoffDelay w.config (count + 1))
          :: (runLoop w (count + 1) false rest).trace,
        is_connected := (runLoop w (count + 1) false rest).is_connected,
        outcome := (runLoop w (count + 1) false rest).outcome } := by
  simp only [runLoop, h, hstop, Bool.false_eq_true, if_false]

/-- Splitting a session script at a point where the session is still live:
the run of `l1 ++ l2` is the run of `l1` followed by the run of `l2` from
the reached heartbeat state. -/
lemma sessionRun_append_running (w : WorkerLoop) (l1 : List SessionEvent) :
    ∀ (st st1 : SessState) (out : List TraceItem) (l2 : List SessionEvent),
      sessionRun w st l1 = (out, SessResult.running st1) →
      sessionRun w st (l1 ++ l2)
        = (out ++ (sessionRun w st1 l2).1, (sessionRun w st1 l2).2) := by
  induction l1 with
  | nil =>
      intro st st1 out l2 h
      simp only [sessionRun] at h
      injection h with h1 h2
      injection h2 with h3
      subst h1; subst h3
      simp
  | cons ev rest ih =>
      intro st st1 out l2 h
      rcases hstep : sessionStep w st ev with ⟨o, sr⟩
      cases sr with
      | Continue st2 =>
          simp only [sessionRun, hstep] at h
          rcases hr : sessionRun w st2 rest with ⟨o2, r2⟩
          rw [hr] at h
          cases r2 with
          | running st3 =>
              injection h with h1 h2
              injection h2 with h3
              subst h1; subst h3
              simp only [List.cons_append, sessionRun, hstep]
              rw [show List.append rest l2 = rest ++ l2 from rfl]
              rw [ih st2 st3 o2 l2 hr]
              simp [List.append_assoc]
          | done r =>
              injection h with h1 h2
              injection h2
      | Finish r =>
          simp only [sessionRun, hstep] at h
          injection h with h1 h2
          injection h2

/-- Positions of the backoff delays recorded by the outer loop: the i-th
delay (0-based) of a loop started at attempt counter `count` is the capped
backoff for counter value `count + 1 + i`. -/
lemma backoffDelays_runLoop (w : WorkerLoop) (attempts : List AttemptScript) :
    ∀ (count : Nat) (conn : Bool) (i : Nat),
      i < (backoffDelays (runLoop w count conn attempts).trace).length →
      (backoffDelays (runLoop w count conn attempts).trace).get? i
        = some (backoffDelay w.config (count + 1 + i)) := by
  induction attempts with
  | nil =>
      intro count conn i hi
      simp [runLoop, backoffDelays] at hi
  | cons a rest ih =>
      intro count conn i hi
      rcases h : loopIteration w conn a with ⟨tr, conn1, ir⟩
      have hp := loopIteration_trace_pure w conn a
      rw [h] at hp
      cases ir with
      | stuck =>
          rw [runLoop_stuck w count conn a rest tr conn1 h] at hi
          rw [hp.2] at hi
          simp at hi
      | done r =>
          rw [runLoop_exit w count conn a rest tr conn1 r h] at hi
          rw [hp.2] at hi
          simp at hi
      | retry =>
          by_cases hstop : backoffStopped a.backoffArrivals = true
          · rw [runLoop_retry_stop w count conn a rest tr conn1 h hstop] at hi ⊢
            rw [backoffDelays_append, hp.2, List.nil_append] at hi ⊢
            rw [backoffDelays_cons_backoff] at hi ⊢
            rw [show backoffDelays [] = [] from rfl] at hi ⊢
            simp only [List.length_cons, List.length_nil] at hi
            have hz : i = 0 := by omega
            subst hz
            simp
          · rw [Bool.not_eq_true] at hstop
            rw [runLoop_retry_go w count conn a rest tr conn1 h hstop] at hi ⊢
            rw [backoffDelays_append, hp.2, List.nil_append,
              backoffDelays_cons_backoff] at hi ⊢
            cases i with
            | zero => simp
            | succ j =>
                simp only [List.length_cons] at hi
                have hj : j < (backoffDelays (runLoop w (count + 1) false rest).trace).length := by
                  omega
                have := ih (count + 1) false j hj
                rw [show (backoffDelay w.config (count + 1)
                    :: backoffDelays (runLoop w (count + 1) false rest).trace).get? (j + 1)
                    = (backoffDelays (runLoop w (count + 1) false rest).trace).get? j from rfl]
                rw [this]
                rw [show count + 1 + 1 + j = count + 1 + (j + 1) from by omega]

/-- Every unfolding of the outer loop on a nonempty script performs at
least one connection attempt. -/
lemma one_le_countCA_runLoop (w : WorkerLoop) (count : Nat) (conn : Bool)
    (a : AttemptScript) (rest : List AttemptScript) :
    1 ≤ countConnectAttempts (runLoop w count conn (a :: rest)).trace := by
  rcases h : loopIteration w conn a with ⟨tr, conn1, ir⟩
  have hp := loopIteration_trace_pure w conn a
  rw [h] at hp
  cases ir with
  | stuck =>
      rw [runLoop_stuck w count conn a rest tr conn1 h, hp.1]
  | done r =>
      rw [runLoop_exit w count conn a rest tr conn1 r h, hp.1]
  | retry =>
      by_cases hstop : backoffStopped a.backoffArrivals = true
      · rw [runLoop_retry_stop w count conn a rest tr conn1 h hstop]
        rw [countCA_append, hp.1]
        omega
      · rw [Bool.not_eq_true] at hstop
        rw [runLoop_retry_go w count conn a rest tr conn1 h hstop]
        rw [countCA_append, hp.1]
        omega

/-! ### Congruence lemmas: nothing in the worker reads `max_reconnect_attempts` -/

/-- Status emission does not read `max_reconnect_attempts`. -/
lemma emit_ignores_max (cfg : WebsocketConfig) (m : Option Nat) (cb c r : Bool) :
    emit_connection_update ⟨{cfg with max_reconnect_attempts := m}, cb⟩ c r
      = emit_connection_update ⟨cfg, cb⟩ c r := rfl

/-- Session steps do not read `max_reconnect_attempts`. -/
lemma sessionStep_ignores_max (cfg : WebsocketConfig) (m : Option Nat) (cb : Bool)
    (st : SessState) (ev : SessionEvent) :
    sessionStep ⟨{cfg with max_reconnect_attempts := m}, cb⟩ st ev
      = sessionStep ⟨cfg, cb⟩ st ev := rfl

/-- Session runs do not read `max_reconnect_attempts`. -/
lemma sessionRun_ignores_max (cfg : WebsocketConfig) (m : Option Nat) (cb : Bool)
    (evs : List SessionEvent) :
    ∀ st : SessState,
      sessionRun ⟨{cfg with max_reconnect_attempts := m}, cb⟩ st evs
        = sessionRun ⟨cfg, cb⟩ st evs := by
  induction evs with
  | nil => intro st; rfl
  | cons ev rest ih =>
      intro st
      simp only [sessionRun, sessionStep_ignores_max]
      rcases h : sessionStep ⟨cfg, cb⟩ st ev with ⟨out, sr⟩
      cases sr with
      | Continue st1 => simp [ih st1]
      | Finish r => simp

/-- Handshake-plus-session does not read `max_reconnect_attempts`. -/
lemma handleConnection_ignores_max (cfg : WebsocketConfig) (m : Option Nat)
    (cb : Bool) (a : AttemptScript) :
    handleConnection ⟨{cfg with max_reconnect_attempts := m}, cb⟩ a
      = handleConnection ⟨cfg, cb⟩ a := by
  rcases hc : ConnectionParams.connect a.connect with e | u
  · simp [handleConnection, hc]
  · simp [handleConnection, hc, sessionRun_ignores_max, emit_ignores_max]

/-- One outer-loop iteration does not read `max_reconnect_attempts`. -/
lemma loopIteration_ignores_max (cfg : WebsocketConfig) (m : Option Nat)
    (cb conn : Bool) (a : AttemptScript) :
    loopIteration ⟨{cfg with max_reconnect_attempts := m}, cb⟩ conn a
      = loopIteration ⟨cfg, cb⟩ conn a := by
  simp only [loopIteration, handleConnection_ignores_max, emit_ignores_max]

/-- Backoff delays do not read `max_reconnect_attempts`. -/
lemma backoffDelay_ignores_max (cfg : WebsocketConfig) (m : Option Nat) (n : Nat) :
    backoffDelay {cfg with max_reconnect_attempts := m} n = backoffDelay cfg n := rfl

/-- The outer retry loop does not read `max_reconnect_attempts`. -/
lemma runLoop_ignores_max (cfg : WebsocketConfig) (m : Option Nat) (cb : Bool)
    (attempts : List AttemptScript) :
    ∀ (count : Nat) (conn : Bool),
      runLoop ⟨{cfg with max_reconnect_attempts := m}, cb⟩ count conn attempts
        = runLoop ⟨cfg, cb⟩ count conn attempts := by
  induction attempts with
  | nil => intro count conn; rfl
  | cons a rest ih =>
      intro count conn
      simp only [runLoop, loopIteration_ignores_max]
      rcases h : loopIteration ⟨cfg, cb⟩ conn a with ⟨tr, conn1, ir⟩
      cases ir with
      | stuck => simp
      | done r => simp
      | retry =>
          have hbd : backoffDelay (WorkerLoop.config
                ⟨{cfg with max_reconnect_attempts := m}, cb⟩) (count + 1)
              = backoffDelay (WorkerLoop.config ⟨cfg, cb⟩) (count + 1) := rfl
          simp [hbd, ih]

/-! ### Claim theorems -/

/-- C1: an HTTP 401 during the transport handshake is classified as the
`Unauthorized` error kind (any other HTTP status stays a generic
connection failure), and the worker loop propagates that error out
immediately as its result: the iteration's trace is just the connection
attempt marker — no further connection attempt, no backoff wait and no
callback event after the failing handshake — regardless of the
`auto_reconnect` flag (the configuration is arbitrary). -/
theorem unauthorized_handshake_fatal (w : WorkerLoop) (count : Nat) (conn : Bool)
    (a : AttemptScript) (rest : List AttemptScript)
    (h : a.connect = some (TransportError.http 401)) :
    handle_connection_error (TransportError.http 401) = WebsocketError.Unauthorized ∧
    (∀ s : Nat, s ≠ 401 → handle_connection_error (TransportError.http s)
        = WebsocketError.ConnectionError (TransportError.http s)) ∧
    runLoop w count conn (a :: rest) =
      { trace := [TraceItem.connectAttempt],
        is_connected := conn,
        outcome := RunOutcome.finished (Except.error WebsocketError.Unauthorized) } := by
  refine ⟨rfl, ?_, ?_⟩
  · intro s hs
    simp [handle_connection_error, hs]
  · have hhc : handleConnection w a
        = ([], false, HCResult.result (Except.error WebsocketError.Unauthorized)) := by
      simp [handleConnection, ConnectionParams.connect, h, handle_connection_error]
    have hli : loopIteration w conn a
        = ([TraceItem.connectAttempt], conn,
           IterResult.done (Except.error WebsocketError.Unauthorized)) := by
      simp [loopIteration, hhc]
    exact runLoop_exit w count conn a rest _ _ _ hli

/-- Witness for `unauthorized_handshake_fatal`: a concrete run whose first
handshake gets an HTTP 401 ends immediately with `Unauthorized`. -/
theorem unauthorized_handshake_fatal_witness :
    runLoop sampleWorker 0 false
      [{ connect := some (TransportError.http 401), connectTime := 0,
         events := [], backoffArrivals := [] }] =
      { trace := [TraceItem.connectAttempt],
        is_connected := false,
        outcome := RunOutcome.finished (Except.error WebsocketError.Unauthorized) } :=
  (unauthorized_handshake_fatal sampleWorker 0 false _ [] rfl).2.2

/-- C9: a close control frame from the peer is classified by
`handle_message` as the `Reconnect` action, so the session ends with the
retryable reconnect outcome `Ok(true)` — never the deliberate-stop outcome
`Ok(false)`. -/
theorem peer_close_yields_reconnect (w : WorkerLoop) (st : SessState) :
    handle_message w st (Except.ok WsFrame.Close)
      = ([], st, Except.ok MessageAction.Reconnect) ∧
    sessionStep w st (SessionEvent.frame (Except.ok WsFrame.Close))
      = ([], StepResult.Finish (Except.ok true)) ∧
    StepResult.Finish (Except.ok (true : Bool))
      ≠ StepResult.Finish (Except.ok false) := by
  refine ⟨rfl, rfl, by simp⟩

/-- C4: `should_send_ping` returns `false` exactly when a ping is
outstanding and the elapsed time since the last pong strictly exceeds the
configured `ping_timeout`; on `false` the heartbeat tick ends the session
with the reconnect outcome (no ping sent), and on `true` a ping frame is
sent and marked outstanding. -/
theorem should_send_ping_spec (w : WorkerLoop) (st : SessState) (now : Nat)
    (pingSendOk : Bool) :
    (should_send_ping w st.waiting_for_pong st.last_pong_time now = false ↔
      st.waiting_for_pong = true ∧
        now - st.last_pong_time > w.config.ping_timeout) ∧
    (should_send_ping w st.waiting_for_pong st.last_pong_time now = false →
      sessionStep w st (SessionEvent.tick now pingSendOk)
        = ([], StepResult.Finish (Except.ok true))) ∧
    (should_send_ping w st.waiting_for_pong st.last_pong_time now = true →
      sessionStep w st (SessionEvent.tick now true)
        = ([TraceItem.sendPing],
           StepResult.Continue { st with waiting_for_pong := true })) := by
  refine ⟨?_, ?_, ?_⟩
  · cases hw : st.waiting_for_pong
    · simp [should_send_ping, hw]
    · by_cases ht : now - st.last_pong_time > w.config.ping_timeout <;>
        simp [should_send_ping, hw, ht]
  · intro hf
    simp [sessionStep, hf]
  · intro ht
    simp [sessionStep, ht]

/-- Witness for `should_send_ping_spec`: with the default 30s timeout, an
outstanding ping and 30001ms of silence end the session with reconnect;
without an outstanding ping the tick sends a ping and marks it
outstanding. -/
theorem should_send_ping_spec_witness :
    sessionStep sampleWorker { last_pong_time := 0, waiting_for_pong := true }
        (SessionEvent.tick 30001 true)
      = ([], StepResult.Finish (Except.ok true)) ∧
    sessionStep sampleWorker { last_pong_time := 0, waiting_for_pong := false }
        (SessionEvent.tick 5000 true)
      = ([TraceItem.sendPing],
         StepResult.Continue { last_pong_time := 0, waiting_for_pong := true }) :=
  ⟨(should_send_ping_spec sampleWorker
      { last_pong_time := 0, waiting_for_pong := true } 30001 true).2.1 (by decide),
   (should_send_ping_spec sampleWorker
      { last_pong_time := 0, waiting_for_pong := false } 5000 true).2.2 (by decide)⟩

/-- C5: a text frame whose payload decodes to a message produces exactly
one callback invocation carrying that tagged variant and leaves the
session running with unchanged state; a text frame that fails to decode
produces no callback invocation and also leaves the session running.
Over any sequence of text frames, the callback invocations are exactly the
successfully decoded messages, in order. -/
theorem text_frame_decode_callbacks (w : WorkerLoop) (st : SessState)
    (m : WebsocketMessage) (ds : List (Option WebsocketMessage))
    (hcb : w.callback = true) :
    sessionStep w st (SessionEvent.frame (Except.ok (WsFrame.Text (some m))))
      = ([TraceItem.callback m], StepResult.Continue st) ∧
    sessionStep w st (SessionEvent.frame (Except.ok (WsFrame.Text none)))
      = ([], StepResult.Continue st) ∧
    sessionRun w st (ds.map fun d => SessionEvent.frame (Except.ok (WsFrame.Text d)))
      = (ds.filterMap fun d => d.map TraceItem.callback, SessResult.running st) := by
  refine ⟨by simp [sessionStep, handle_message, process_text_message, hcb],
    by simp [sessionStep, handle_message, process_text_message], ?_⟩
  induction ds with
  | nil => simp [sessionRun]
  | cons d rest ih =>
      rcases d with _ | m1
      · simp [sessionRun, sessionStep, handle_message, process_text_message, ih]
      · simp [sessionRun, sessionStep, handle_message, process_text_message, hcb, ih]

/-- Witness for `text_frame_decode_callbacks`: one decodable and one
malformed frame produce exactly one callback and leave the session
running. -/
theorem text_frame_decode_callbacks_witness :
    sessionRun sampleWorker { last_pong_time := 0, waiting_for_pong := false }
      ([some (WebsocketMessage.WebsocketConnectionUpdate true true), none].map
        fun d => SessionEvent.frame (Except.ok (WsFrame.Text d)))
      = ([TraceItem.callback (WebsocketMessage.WebsocketConnectionUpdate true true)],
         SessResult.running { last_pong_time := 0, waiting_for_pong := false }) :=
  (text_frame_decode_callbacks sampleWorker
    { last_pong_time := 0, waiting_for_pong := false }
    (WebsocketMessage.WebsocketConnectionUpdate true true)
    [some (WebsocketMessage.WebsocketConnectionUpdate true true), none] rfl).2.2

/-- C3: the backoff delay recorded before the N-th reconnection attempt
(the i-th recorded delay, 0-based, is N = i + 1) equals
`min(reconnect_interval * N, 60s)`, and the formula is monotonically
non-decreasing in N (so the delay sequence is non-decreasing until the
60-second cap, 60000 ms). -/
theorem backoff_delay_formula (w : WorkerLoop) (attempts : List AttemptScript)
    (n i : Nat)
    (hi : i < (backoffDelays (WorkerLoop.run w attempts).trace).length) :
    (backoffDelays (WorkerLoop.run w attempts).trace).get? i
      = some (backoffDelay w.config (i + 1)) ∧
    backoffDelay w.config n = min (w.config.reconnect_interval * n) 60000 ∧
    backoffDelay w.config n ≤ backoffDelay w.config (n + 1) := by
  refine ⟨?_, rfl, ?_⟩
  · rw [show i + 1 = 0 + 1 + i from by omega]
    exact backoffDelays_runLoop w attempts 0 false i hi
  · exact min_le_min (Nat.mul_le_mul_left _ (Nat.le_succ n)) (le_refl 60000)

/-- Witness for `backoff_delay_formula`: with the default 5s interval, the
second recorded backoff delay of a concrete run is
`min(5000 * 2, 60000) = 10000` ms. -/
theorem backoff_delay_formula_witness :
    (backoffDelays (WorkerLoop.run sampleWorker
        [retryableAttempt, retryableAttempt]).trace).get? 1
      = some (backoffDelay sampleWorker.config 2) ∧
    backoffDelay sampleWorker.config 2 = 10000 :=
  ⟨(backoff_delay_formula sampleWorker [retryableAttempt, retryableAttempt] 2 1
      (by decide)).1, by decide⟩

/-- C6: two configurations that differ only in `max_reconnect_attempts`
give identical worker behaviour on every script — the same trace (retry
decisions, backoff delays, emitted events) and the same terminal outcome
and flag value: no part of the worker consults `max_reconnect_attempts`. -/
theorem run_ignores_max_reconnect_attempts (cfg : WebsocketConfig)
    (m : Option Nat) (cb : Bool) (attempts : List AttemptScript) :
    WorkerLoop.run ⟨{cfg with max_reconnect_attempts := m}, cb⟩ attempts
      = WorkerLoop.run ⟨cfg, cb⟩ attempts :=
  runLoop_ignores_max cfg m cb attempts 0 false

/-- C7: a `Reconnect` delivered as the first control message during the
backoff wait is observationally equivalent to letting the backoff elapse
with no command: the whole remaining run is equal (the recv branch's
`Stop` pattern fails on `Reconnect`, the branch is disabled for the rest
of the select, and the sleep wins regardless of later arrivals in the same
wait).  Moreover, when the backoff was entered (retryable failure with
auto-reconnect on) and another attempt is scripted, the run proceeds to a
new connection attempt — no error and no terminal outcome ends it at the
backoff. -/
theorem reconnect_during_backoff_noop (w : WorkerLoop) (count : Nat) (conn : Bool)
    (a : AttemptScript) (more : List ControlMessage) (b : AttemptScript)
    (rest : List AttemptScript) :
    runLoop w count conn
        ({ a with backoffArrivals := ControlMessage.Reconnect :: more } :: rest)
      = runLoop w count conn ({ a with backoffArrivals := [] } :: rest) ∧
    (w.config.auto_reconnect = true → a.connect = some TransportError.other →
      2 ≤ countConnectAttempts (runLoop w count conn
        ({ a with backoffArrivals := ControlMessage.Reconnect :: more }
          :: b :: rest)).trace) := by
  constructor
  · have h1 : loopIteration w conn
        { a with backoffArrivals := ControlMessage.Reconnect :: more }
        = loopIteration w conn a := rfl
    have h2 : loopIteration w conn { a with backoffArrivals := [] }
        = loopIteration w conn a := rfl
    rcases h : loopIteration w conn a with ⟨tr, conn1, ir⟩
    cases ir with
    | stuck =>
        rw [runLoop_stuck w count conn _ rest tr conn1 (h1.trans h),
          runLoop_stuck w count conn _ rest tr conn1 (h2.trans h)]
    | done r =>
        rw [runLoop_exit w count conn _ rest tr conn1 r (h1.trans h),
          runLoop_exit w count conn _ rest tr conn1 r (h2.trans h)]
        cases r <;> rfl
    | retry =>
        rw [runLoop_retry_go w count conn _ rest tr conn1 (h1.trans h) rfl,
          runLoop_retry_go w count conn _ rest tr conn1 (h2.trans h) rfl]
  · intro hauto hconn
    have hhc : handleConnection w
        { a with backoffArrivals := ControlMessage.Reconnect :: more }
        = ([], false, HCResult.result
            (Except.error (WebsocketError.ConnectionError TransportError.other))) := by
      simp [handleConnection, ConnectionParams.connect, hconn, handle_connection_error]
    have hli : loopIteration w conn
        { a with backoffArrivals := ControlMessage.Reconnect :: more }
        = (TraceItem.connectAttempt :: emit_connection_update w false true, conn,
           IterResult.retry) := by
      simp [loopIteration, hhc, hauto]
    rw [runLoop_retry_go w count conn _ (b :: rest) _ conn hli rfl]
    rw [countCA_append, countCA_cons_attempt, (emit_trace_pure w false true).1,
      countCA_cons_backoff]
    have h2 := one_le_countCA_runLoop w (count + 1) false b rest
    omega

/-- Witness for `reconnect_during_backoff_noop`: a concrete run where a
`Reconnect` arrives during the backoff wait equals the run where nothing
arrives, and with a second attempt scripted the run reaches a second
connection attempt. -/
theorem reconnect_during_backoff_noop_witness :
    runLoop sampleWorker 0 false
        [{ connect := some TransportError.other, connectTime := 0, events := [],
           backoffArrivals := [ControlMessage.Reconnect] }]
      = runLoop sampleWorker 0 false
        [{ connect := some TransportError.other, connectTime := 0, events := [],
           backoffArrivals := [] }] ∧
    2 ≤ countConnectAttempts (runLoop sampleWorker 0 false
        [{ connect := some TransportError.other, connectTime := 0, events := [],
           backoffArrivals := [ControlMessage.Reconnect] },
         retryableAttempt]).trace := by
  have h := reconnect_during_backoff_noop sampleWorker 0 false
    { connect := some TransportError.other, connectTime := 0, events := [],
      backoffArrivals := [] } [] retryableAttempt []
  exact ⟨h.1, h.2 rfl rfl⟩

/-- C8: with the auto-reconnect flag off, a session ending with the
reconnect outcome `Ok(true)` is treated by the supervisor exactly as a
stop: the disconnect status event is emitted with reconnect=false, the
loop ends with `Ok(())`, the shared flag reads false afterwards, and no
further connection attempt is made (exactly one attempt in the whole
trace). -/
theorem auto_reconnect_off_no_retry (w : WorkerLoop) (count : Nat) (conn : Bool)
    (a : AttemptScript) (rest : List AttemptScript) (tr : List TraceItem)
    (dc : Bool)
    (hauto : w.config.auto_reconnect = false)
    (hsess : handleConnection w a = (tr, dc, HCResult.result (Except.ok true))) :
    runLoop w count conn (a :: rest) =
      { trace := TraceItem.connectAttempt :: tr
          ++ emit_connection_update w false false,
        is_connected := false,
        outcome := RunOutcome.finished (Except.ok ()) } ∧
    countConnectAttempts (runLoop w count conn (a :: rest)).trace = 1 := by
  have hli : loopIteration w conn a
      = (TraceItem.connectAttempt :: tr ++ emit_connection_update w false false,
         if dc then true else conn, IterResult.done (Except.ok ())) := by
    simp [loopIteration, hsess, hauto]
  have hrun := runLoop_exit w count conn a rest _ _ _ hli
  constructor
  · exact hrun
  · rw [hrun]
    have hp := handleConnection_trace_pure w a
    rw [hsess] at hp
    show countConnectAttempts (TraceItem.connectAttempt :: tr
      ++ emit_connection_update w false false) = 1
    rw [List.cons_append, countCA_cons_attempt, countCA_append, hp.1,
      (emit_trace_pure w false false).1]

/-- Witness for `auto_reconnect_off_no_retry`: with auto-reconnect off, a
concrete session ended by a `Reconnect` control command terminates the
worker with the disconnect event carrying reconnect=false. -/
theorem auto_reconnect_off_no_retry_witness :
    runLoop sampleWorkerNoRetry 0 false
      [{ connect := none, connectTime := 0,
         events := [SessionEvent.control ControlMessage.Reconnect],
         backoffArrivals := [] }] =
      { trace := TraceItem.connectAttempt ::
          [TraceItem.connected,
           TraceItem.callback (WebsocketMessage.WebsocketConnectionUpdate true false),
           TraceItem.sendClose]
          ++ emit_connection_update sampleWorkerNoRetry false false,
        is_connected := false,
        outcome := RunOutcome.finished (Except.ok ()) } :=
  (auto_reconnect_off_no_retry sampleWorkerNoRetry 0 false
    { connect := none, connectTime := 0,
      events := [SessionEvent.control ControlMessage.Reconnect],
      backoffArrivals := [] } []
    [TraceItem.connected,
     TraceItem.callback (WebsocketMessage.WebsocketConnectionUpdate true false),
     TraceItem.sendClose] true rfl rfl).1

/-- C10: `start_background` refuses to start while a worker handle exists
— it returns `AlreadyConnected` and leaves the client state untouched (no
second worker spawned, control channel not replaced) — whereas
`start_blocking` performs no such check: it unconditionally creates a
fresh control channel and runs a new worker loop on the caller's task. -/
theorem start_background_vs_blocking (c : ClientState) (w : WorkerLoop)
    (attempts : List AttemptScript)
    (h : c.has_worker_handle = true) :
    WebSocketClient.start_background c
      = (c, Except.error WebsocketError.AlreadyConnected) ∧
    WebSocketClient.start_blocking c w attempts =
      ({ c with
          has_control_tx := true,
          control_generation := c.control_generation + 1 },
       WorkerLoop.run w attempts) := by
  constructor
  · simp [WebSocketClient.start_background, h]
  · rfl

/-- Witness for `start_background_vs_blocking` at a concrete client state
with a live worker handle. -/
theorem start_background_vs_blocking_witness :
    WebSocketClient.start_background
        { has_worker_handle := true,
          has_control_tx := true,
          control_generation := 1 }
      = ({ has_worker_handle := true,
           has_control_tx := true,
           control_generation := 1 },
         Except.error WebsocketError.AlreadyConnected) :=
  (start_background_vs_blocking
    { has_worker_handle := true, has_control_tx := true, control_generation := 1 }
    sampleWorker [] rfl).1

/-- Counterexample to C2 as stated: in this run both control messages are
delivered during the first backoff wait (they are the wait's arrivals, in
order `Reconnect`, then `Stop`), yet the worker performs a second
connection attempt after the `Stop` was delivered: the first arrival
fails the recv branch's `Some(ControlMessage::Stop)` pattern, whereupon
`tokio::select!` disables that branch for the remainder of the wait and
the sleep wins.  Likewise a `Stop` delivered before any connection cannot
prevent the first attempt, since the worker only reads the control
channel inside an active session or during backoff. -/
theorem stop_delivery_counterexample :
    countConnectAttempts (WorkerLoop.run sampleWorker
      [{ connect := some TransportError.other, connectTime := 0, events := [],
         backoffArrivals := [ControlMessage.Reconnect, ControlMessage.Stop] },
       { connect := some TransportError.other, connectTime := 0, events := [],
         backoffArrivals := [] }]).trace = 2 := by decide

/-- C2 (amended): a `Stop` that the worker processes — at a session select
point, or as the first control message arriving during a backoff wait —
makes the worker reach the terminal stopped outcome `Ok(())` with the
shared `is_connected` flag false and no connection attempt beyond the one
already in progress (exactly one attempt marker in the remaining trace).
A `Stop` that is delivered but not yet processed does not prevent attempts
made before the next control-channel check (see the counterexample). -/
theorem stop_processed_terminates (w : WorkerLoop) (count : Nat) (conn : Bool)
    (rest : List AttemptScript) (a1 a2 : AttemptScript)
    (pre suf : List SessionEvent) (out0 : List TraceItem) (st1 : SessState)
    (more : List ControlMessage) :
    (a1.connect = none →
     a1.events = pre ++ SessionEvent.control ControlMessage.Stop :: suf →
     sessionRun w { last_pong_time := a1.connectTime, waiting_for_pong := false } pre
        = (out0, SessResult.running st1) →
     (runLoop w count conn (a1 :: rest)).outcome
         = RunOutcome.finished (Except.ok ()) ∧
     (runLoop w count conn (a1 :: rest)).is_connected = false ∧
     countConnectAttempts (runLoop w count conn (a1 :: rest)).trace = 1) ∧
    (a2.connect = some TransportError.other →
     w.config.auto_reconnect = true →
     a2.backoffArrivals = ControlMessage.Stop :: more →
     (runLoop w count conn (a2 :: rest)).outcome
         = RunOutcome.finished (Except.ok ()) ∧
     (runLoop w count conn (a2 :: rest)).is_connected = false ∧
     countConnectAttempts (runLoop w count conn (a2 :: rest)).trace = 1) := by
  constructor
  · intro hconn hev hpre
    have hc : ConnectionParams.connect a1.connect = Except.ok () := by
      rw [hconn]
      rfl
    have hstop : sessionRun w st1 (SessionEvent.control ControlMessage.Stop :: suf)
        = ([TraceItem.sendClose], SessResult.done (Except.ok false)) := by
      simp [sessionRun, sessionStep, handle_control_message]
    have hfull : sessionRun w
        { last_pong_time := a1.connectTime, waiting_for_pong := false } a1.events
        = (out0 ++ [TraceItem.sendClose], SessResult.done (Except.ok false)) := by
      rw [hev, sessionRun_append_running w pre _ st1 out0 _ hpre, hstop]
    rcases hhcr : handleConnection w a1 with ⟨tr0, dc0, hr0⟩
    have h22 : (handleConnection w a1).2.2 = HCResult.result (Except.ok false) := by
      simp [handleConnection, hc, hfull]
    rw [hhcr] at h22
    simp only at h22
    subst h22
    have hir : loopIteration w conn a1
        = (TraceItem.connectAttempt :: tr0 ++ emit_connection_update w false false,
           if dc0 then true else conn, IterResult.done (Except.ok ())) := by
      simp [loopIteration, hhcr]
    have hrun := runLoop_exit w count conn a1 rest _ _ _ hir
    refine ⟨by rw [hrun], by rw [hrun], ?_⟩
    rw [hrun]
    show countConnectAttempts (TraceItem.connectAttempt :: tr0
      ++ emit_connection_update w false false) = 1
    have hp := handleConnection_trace_pure w a1
    rw [hhcr] at hp
    rw [List.cons_append, countCA_cons_attempt, countCA_append, hp.1,
      (emit_trace_pure w false false).1]
  · intro hconn2 hauto harr
    have hhc : handleConnection w a2
        = ([], false, HCResult.result
            (Except.error (WebsocketError.ConnectionError TransportError.other))) := by
      simp [handleConnection, ConnectionParams.connect, hconn2, handle_connection_error]
    have hli : loopIteration w conn a2
        = (TraceItem.connectAttempt :: emit_connection_update w false true, conn,
           IterResult.retry) := by
      simp [loopIteration, hhc, hauto]
    have hstop2 : backoffStopped a2.backoffArrivals = true := by
      rw [harr]
      rfl
    have hrun := runLoop_retry_stop w count conn a2 rest _ _ hli hstop2
    refine ⟨by rw [hrun], by rw [hrun], ?_⟩
    rw [hrun]
    show countConnectAttempts
      ((TraceItem.connectAttempt :: emit_connection_update w false true)
        ++ [TraceItem.backoffWait (backoffDelay w.config (count + 1))]) = 1
    rw [countCA_append, countCA_cons_attempt, (emit_trace_pure w false true).1,
      countCA_cons_backoff]
    rfl

/-- Witness for `stop_processed_terminates`: a `Stop` processed as the
first session event, and a `Stop` arriving first during a backoff wait,
both end concrete runs in the stopped outcome with the flag false. -/
theorem stop_processed_terminates_witness :
    (runLoop sampleWorker 0 false
        [{ connect := none, connectTime := 0,
           events := [SessionEvent.control ControlMessage.Stop],
           backoffArrivals := [] }]).outcome
      = RunOutcome.finished (Except.ok ()) ∧
    (runLoop sampleWorker 0 false
        [{ connect := none, connectTime := 0,
           events := [SessionEvent.control ControlMessage.Stop],
           backoffArrivals := [] }]).is_connected = false ∧
    (runLoop sampleWorker 0 false
        [{ connect := some TransportError.other, connectTime := 0, events := [],
           backoffArrivals := [ControlMessage.Stop] }]).outcome
      = RunOutcome.finished (Except.ok ()) := by
  have h := stop_processed_terminates sampleWorker 0 false []
    { connect := none, connectTime := 0,
      events := [SessionEvent.control ControlMessage.Stop], backoffArrivals := [] }
    { connect := some TransportError.other, connectTime := 0, events := [],
      backoffArrivals := [ControlMessage.Stop] }
    [] [] [] { last_pong_time := 0, waiting_for_pong := false } []
  exact ⟨(h.1 rfl rfl rfl).1, (h.1 rfl rfl rfl).2.1, (h.2 rfl rfl rfl).1⟩

end SmsClient
